import Mathlib

/-!
Verification development for the payslip-automation pipeline.

Shallow embedding of the program's core functions:
- `safe_filename` (src/main.py) — filename sanitization;
- `resolve_period` / `resolve_pay_period` (src/main.py, src/utils/date_resolver.py)
  — pay-period resolution;
- `load_employees` (src/data_io/load_data.py) — employee record loading;
- `OutlookEmailSender.send_email` (src/email/outlook_sender.py) — notification
  dispatch with its validation order and external COM call trace;
- `ExcelPdfExporter._force_recalc_and_wait` (src/pdf/excel_pdf_exporter.py)
  — the bounded recalculation poll loop;
- the orchestration loop of `main` (src/main.py) — per-employee pipeline with
  its event trace, processed counter and process exit code.
-/

namespace Payslip

/-! ## Filename sanitization (src/main.py, `safe_filename`)

Python source:
```
def safe_filename(s, max_len=80):
    s = re.sub(r"[\\/:\*\?\"<>\|\n\r\t]+", "_", str(s))
    s = re.sub(r"\s+", " ", s).strip()
    s = s.replace(" ", "_")
    return s[:max_len] if len(s) > max_len else s
```
-/

/-- The character class of the first regex in `safe_filename`:
backslash, slash, colon, star, question mark, double quote, angle brackets,
pipe, newline, carriage return, tab. These are the characters the code treats
as filesystem-illegal. -/
def isIllegalChar (c : Char) : Bool :=
  c = '\\' || c = '/' || c = ':' || c = '*' || c = '?' || c = '\"' ||
  c = '<' || c = '>' || c = '|' || c = '\n' || c = '\r' || c = '\t'

/-- Python's `\s` / `str.strip()` whitespace, restricted to its ASCII core
(space, tab, newline, carriage return, vertical tab, form feed). Python also
matches some further Unicode whitespace; the theorems below do not depend on
the exact extent of the class, only on it containing the space character. -/
def isPySpace (c : Char) : Bool :=
  c = ' ' || c = '\t' || c = '\n' || c = '\r' || c = '\x0b' || c = '\x0c'

/-- `re.sub(class+, r, s)`: replace every maximal run of characters satisfying
`p` by the single character `r`. `inRun` records whether the previous
character was part of a run (so the run's replacement was already emitted). -/
def collapseAux (p : Char → Bool) (r : Char) : Bool → List Char → List Char
  | _, [] => []
  | inRun, c :: cs =>
    if p c then
      (if inRun then [] else [r]) ++ collapseAux p r true cs
    else
      c :: collapseAux p r false cs

/-- Replace each maximal run of `p`-characters by one `r`. -/
def collapseRuns (p : Char → Bool) (r : Char) (l : List Char) : List Char :=
  collapseAux p r false l

/-- Python `str.strip()` on a character list: drop leading and trailing
whitespace. -/
def pyStrip (l : List Char) : List Char :=
  ((l.dropWhile isPySpace).reverse.dropWhile isPySpace).reverse

/-- Python `str.strip()` on a `String`. -/
def pyStripS (s : String) : String :=
  String.mk (pyStrip s.data)

/-- `safe_filename` on the underlying character list:
1. collapse runs of illegal characters to `_`;
2. collapse whitespace runs to a single space, then strip;
3. replace spaces by `_`;
4. truncate to `maxLen`. -/
def safeFilenameList (maxLen : Nat) (l : List Char) : List Char :=
  let s1 := collapseRuns isIllegalChar '_' l
  let s2 := collapseRuns isPySpace ' ' s1
  let s3 := pyStrip s2
  let s4 := s3.map (fun c => if c = ' ' then '_' else c)
  s4.take maxLen

/-- `safe_filename` from src/main.py. The default cap is 80. -/
def safe_filename (s : String) (maxLen : Nat := 80) : String :=
  String.mk (safeFilenameList maxLen s.data)

/-! ## Period resolution

`resolve_period` (src/main.py, lines 98–116) and `resolve_pay_period`
(src/utils/date_resolver.py, lines 37–53): the year/month derivation from the
mode selector and the reference date. The mode string reaches the branch
already `.strip().lower()`-normalized in main.py. -/

/-- Outcome of the year/month derivation: either a resolved `(year, month)`
pair or the fatal configuration error (`SystemExit` in main.py, `ValueError`
in date_resolver.py). -/
def resolvePeriodYM (mode : String) (refYear : Int) (refMonth : Nat)
    (manualYear : Option Int) (manualMonth : Option Nat) :
    Except String (Int × Nat) :=
  if mode = "manual" then
    .ok (manualYear.getD refYear, manualMonth.getD refMonth)
  else if mode = "auto_current_month" then
    .ok (refYear, refMonth)
  else if mode = "auto_previous_month" then
    if refMonth = 1 then .ok (refYear - 1, 12) else .ok (refYear, refMonth - 1)
  else
    .error "Invalid run.period_mode."

/-- The same derivation as implemented in src/utils/date_resolver.py:
`month = ref.month - 1; if month == 0: month = 12; year -= 1`.
(`manual` mode there reads `run_cfg["manual_period"]` and raises `KeyError`
when the keys are absent; absent keys are modelled as an error.) -/
def resolvePayPeriodYM (mode : String) (refYear : Int) (refMonth : Nat)
    (manualYear : Option Int) (manualMonth : Option Nat) :
    Except String (Int × Nat) :=
  if mode = "manual" then
    match manualYear, manualMonth with
    | some y, some m => .ok (y, m)
    | _, _ => .error "KeyError: manual_period"
  else if mode = "auto_current_month" then
    .ok (refYear, refMonth)
  else if mode = "auto_previous_month" then
    let m := refMonth - 1
    if m = 0 then .ok (refYear - 1, 12) else .ok (refYear, m)
  else
    .error "Unknown period_mode"

/-! ## Employee record loading (src/data_io/load_data.py, `load_employees`)

The data source is read with `pd.read_excel(..., dtype=str)`: every present
cell is a string, empty cells are NaN. A row is a list of optional strings
aligned with the column list; `none` models NaN. -/

/-- The tabular data source as pandas sees it after
`read_excel(dtype=str)`: named columns and rows of optional string cells
(`none` = NaN for an empty cell). -/
structure DataFrame where
  columns : List String
  rows : List (List (Option String))
deriving Repr, DecidableEq

/-- `row[col]` lookup: the cell under the first column named `col`
(`none` when the cell is NaN or the column is absent / the row too short). -/
def cellAt (df : DataFrame) (row : List (Option String)) (col : String) :
    Option String :=
  match df.columns.indexOf? col with
  | some i => (row.get? i).getD none
  | none => none

/-- An employee record as produced by `load_employees`: a dict with the keys
`ref`, `name`, `email`. -/
structure Employee where
  ref : String
  name : String
  email : String
deriving Repr, DecidableEq

/-- Failures of `load_employees`: the `ValueError` listing missing required
columns, and the `AttributeError` Python raises when `row[col].strip()` is
applied to a NaN cell (a float). -/
inductive LoadError where
  | schemaError (missingCols : List String)
  | attributeError
deriving Repr, DecidableEq

/-- The row predicate of `df.dropna(subset=required_non_null_columns)`: a row
is kept iff every required column's cell is non-NaN. -/
def rowKept (df : DataFrame) (required : List String)
    (row : List (Option String)) : Bool :=
  required.all (fun col => (cellAt df row col).isSome)

/-- `row[col].strip()`: fails like Python when the cell is NaN. -/
def stripCell (df : DataFrame) (row : List (Option String)) (col : String) :
    Except LoadError String :=
  match cellAt df row col with
  | some s => .ok (pyStripS s)
  | none => .error .attributeError

/-- `load_employees` from src/data_io/load_data.py:
1. `missing_cols = [col for col in required if col not in df.columns]`,
   raise `ValueError` listing them all if non-empty;
2. `df_clean = df.dropna(subset=required)`: keep rows whose required cells
   are all non-NaN;
3. build `{ref, name, email}` dicts from the kept rows, stripping each value,
   in row order. -/
def load_employees (df : DataFrame) (referenceCol nameCol emailCol : String)
    (required : List String) : Except LoadError (List Employee) :=
  let missingCols := required.filter (fun col => !(df.columns.contains col))
  if missingCols.isEmpty then
    let dfClean := df.rows.filter (rowKept df required)
    dfClean.mapM (fun row => do
      let r ← stripCell df row referenceCol
      let n ← stripCell df row nameCol
      let e ← stripCell df row emailCol
      pure { ref := r, name := n, email := e })
  else
    .error (.schemaError missingCols)

/-! ## Notification dispatch (src/email/outlook_sender.py, `send_email`)

The method validates its inputs, then makes a sequence of calls on the
Outlook COM session (`CreateItem`, property assignments, `Attachments.Add`,
`Send`/`Display`). The model returns the list of external COM calls actually
made together with the outcome, in program order. -/

/-- One call on the external Outlook COM session. -/
inductive MailCall where
  | createItem
  | setTo (v : String)
  | setSubject (v : String)
  | setBody (v : String)
  | setSentOnBehalf (v : String)
  | attachAdd (path : String)
  | display
  | send
deriving Repr, DecidableEq

/-- Exceptions `send_email` can raise: `ValueError` for empty fields,
`FileNotFoundError` for a missing attachment. -/
inductive MailError where
  | valueError (msg : String)
  | fileNotFound (path : String)
deriving Repr, DecidableEq

/-- `OutlookEmailSender.send_email`. `abspath` models `os.path.abspath`,
`fileExists` models `os.path.exists`. Returns the COM calls made before the
outcome (`none` = returned normally, `some e` = raised `e`). Truthiness of
`sender_mailbox` / `attachment_path` (`if sender_mailbox:` /
`if attachment_path:`) is `some` of a non-empty string. -/
def send_email (sendMode : String) (toAddress subject body : String)
    (attachmentPath : Option String) (senderMailbox : Option String)
    (abspath : String → String) (fileExists : String → Bool) :
    List MailCall × Option MailError :=
  if toAddress = "" then
    ([], some (.valueError "Recipient email address is missing or invalid"))
  else if subject = "" then
    ([], some (.valueError "Email subject cannot be empty"))
  else if body = "" then
    ([], some (.valueError "Email body cannot be empty"))
  else
    let calls1 := [MailCall.createItem, .setTo toAddress,
      .setSubject subject, .setBody body]
    let calls2 := calls1 ++
      (match senderMailbox with
       | some m => if m = "" then [] else [MailCall.setSentOnBehalf m]
       | none => [])
    let finish : List MailCall → List MailCall × Option MailError :=
      fun calls =>
        (calls ++ [if sendMode = "display" then MailCall.display
                   else MailCall.send], none)
    match attachmentPath with
    | some p =>
      if p = "" then finish calls2
      else
        let ap := abspath p
        if fileExists ap then finish (calls2 ++ [MailCall.attachAdd ap])
        else (calls2, some (.fileNotFound ap))
    | none => finish calls2

/-! ## Recalculation wait (src/pdf/excel_pdf_exporter.py,
`_force_recalc_and_wait`)

```
start = time.time()
while getattr(self.excel, "CalculationState", 0) != 0:
    if time.time() - start > self.timeout_seconds:
        raise TimeoutError(...)
    time.sleep(0.2)
```
Time is modelled in milliseconds on an ideal clock where iteration `i` begins
at elapsed time `200 * i` (each prior iteration slept 0.2 s). `stateAt i` is
the `CalculationState` the session reports at the `i`-th poll
(0 = done, 1 = calculating, 2 = pending). -/

/-- The poll loop from iteration `i` on: return the index of the poll that
saw state 0, or raise `TimeoutError` when the elapsed time exceeds the
timeout while the state is still non-zero. -/
def pollCalc (stateAt : Nat → Nat) (timeoutMs : Nat) (i : Nat) :
    Except String Nat :=
  if stateAt i = 0 then .ok i
  else if timeoutMs < 200 * i then
    .error "Excel calculation did not complete within the timeout"
  else pollCalc stateAt timeoutMs (i + 1)
termination_by timeoutMs / 200 + 1 - i
decreasing_by
  rename_i h2
  simp only [not_lt] at h2
  have hi : i ≤ timeoutMs / 200 := (Nat.le_div_iff_mul_le (by omega)).mpr
    (by omega)
  omega

/-- The recalculation call issued before the wait:
`CalculateFullRebuild` when `force_full_recalc`, else `Calculate`. -/
inductive RecalcCall where
  | calculateFullRebuild
  | calculate
deriving Repr, DecidableEq

/-- `_force_recalc_and_wait`: force a (full) recalculation, then run the
bounded poll loop from iteration 0. -/
def force_recalc_and_wait (forceFullRecalc : Bool) (stateAt : Nat → Nat)
    (timeoutMs : Nat) : RecalcCall × Except String Nat :=
  ((if forceFullRecalc then RecalcCall.calculateFullRebuild
    else RecalcCall.calculate),
   pollCalc stateAt timeoutMs 0)

/-! ## The orchestration loop (src/main.py, `main`, lines 319–394, and the
`__main__` guard, lines 397–412)

By the time the loop starts, `main` has resolved capabilities, the period,
the directory layout and the message templates; those resolved values are
collected in `RunCfg`. Python `str.format` patterns are embedded as token
lists (`filename_pattern` uses `{ref}/{name}/{date}`, the subject and body
templates use `{name}/{ref}/{period_display}/{period_id}/{payslip_date}`).

The loop body calls `write_employee_to_template`, `exporter.export` and
`sender.send_email`; whether such a call raises depends on the outside world
(filesystem, Excel, Outlook), modelled by `Env` as an optional exception
message per employee reference. The loop itself installs NO exception
handler: a raise propagates out of `main` into the `__main__` guard. -/

/-- A token of the configured `output.filename_pattern`
(default `{ref}_{name}_{date}`). -/
inductive FTok where
  | lit (s : String)
  | refField
  | nameField
  | dateField
deriving Repr, DecidableEq

/-- `filename_pattern.format(ref=..., name=..., date=...)`. -/
def renderFilename (pat : List FTok) (r n d : String) : String :=
  (pat.map (fun t => match t with
    | .lit s => s
    | .refField => r
    | .nameField => n
    | .dateField => d)).foldl (· ++ ·) ""

/-- A token of the subject/body message templates. -/
inductive MTok where
  | lit (s : String)
  | nameField
  | refField
  | periodDisplayField
  | periodIdField
  | payslipDateField
deriving Repr, DecidableEq

/-- `tmpl.format(name=..., ref=..., period_display=..., period_id=...,
payslip_date=...)`. -/
def renderMessage (pat : List MTok) (n r pd pid pday : String) : String :=
  (pat.map (fun t => match t with
    | .lit s => s
    | .nameField => n
    | .refField => r
    | .periodDisplayField => pd
    | .periodIdField => pid
    | .payslipDateField => pday)).foldl (· ++ ·) ""

/-- The run-level values `main` computes before the employee loop. -/
structure RunCfg where
  pdfEnabled : Bool
  emailEnabled : Bool
  xlsxDir : String
  pdfDir : String
  periodId : String
  periodDisplay : String
  payslipDateStr : String
  filenamePattern : List FTok
  subjectTmpl : List MTok
  bodyTmpl : List MTok
  senderMailbox : Option String

/-- The outside world's responses to the three per-employee external steps,
keyed by the (stripped) employee reference: `some msg` means the call raises
an exception with that message, `none` means it returns normally. -/
structure Env where
  templateFails : String → Option String
  exportFails : String → Option String
  sendFails : String → Option String

/-- Observable effects of one run of the loop, in program order. -/
inductive Event where
  | warnSkipMissingRef
  | writeWorkbook (outPath refVal : String)
  | openExcelSession
  | exportPdf (src dst : String)
  | closeExcelSession
  | warnNoEmail (refVal : String)
  | openOutlookSession
  | sendMail (toAddr subject body attachment : String)
  | closeOutlookSession
deriving Repr, DecidableEq

/-- Outcome of one iteration of the loop body. -/
inductive StepOutcome where
  | skippedNoRef
  | ok
  | raised (msg : String)
deriving Repr, DecidableEq

/-- The sanitized file stem the loop computes for an employee:
`safe_filename(filename_pattern.format(ref=emp_ref, name=emp_name,
date=period.period_id))`. -/
def fileStem (cfg : RunCfg) (refVal nameVal : String) : String :=
  safe_filename (renderFilename cfg.filenamePattern refVal nameVal
    cfg.periodId)

/-- `xlsx_dir / f"{file_stem}.xlsx"`. -/
def xlsxPathOf (cfg : RunCfg) (refVal nameVal : String) : String :=
  cfg.xlsxDir ++ "/" ++ fileStem cfg refVal nameVal ++ ".xlsx"

/-- `pdf_dir / f"{file_stem}.pdf"`. -/
def pdfPathOf (cfg : RunCfg) (refVal nameVal : String) : String :=
  cfg.pdfDir ++ "/" ++ fileStem cfg refVal nameVal ++ ".pdf"

/-- One iteration of the loop body of `main` for employee `emp`:
strip the fields; `continue` with a warning when the ref is empty; write the
workbook via the template; when `pdf_enabled`, enter the Excel session, export
and leave it (`with excel_exporter as exporter:` — `__exit__` runs even when
`export` raises); when `email_enabled`, either warn and skip when the record
has no email, or enter the Outlook session and send (again a `with` block).
An exception in any step ends the iteration with `StepOutcome.raised`; the
loop has no handler for it. -/
def processOne (cfg : RunCfg) (env : Env) (emp : Employee) :
    List Event × StepOutcome :=
  let refVal := pyStripS emp.ref
  let nameVal := pyStripS emp.name
  let emailVal := pyStripS emp.email
  if refVal = "" then ([Event.warnSkipMissingRef], .skippedNoRef)
  else
    let xlsxPath := xlsxPathOf cfg refVal nameVal
    let pdfPath := pdfPathOf cfg refVal nameVal
    match env.templateFails refVal with
    | some msg => ([], .raised msg)
    | none =>
      let ev1 := [Event.writeWorkbook xlsxPath refVal]
      match
        (if cfg.pdfEnabled then
          match env.exportFails refVal with
          | some msg =>
            (ev1 ++ [Event.openExcelSession, Event.closeExcelSession],
             some msg)
          | none =>
            (ev1 ++ [Event.openExcelSession, Event.exportPdf xlsxPath pdfPath,
              Event.closeExcelSession], none)
        else (ev1, none) : List Event × Option String)
      with
      | (ev2, some msg) => (ev2, .raised msg)
      | (ev2, none) =>
        if cfg.emailEnabled then
          if emailVal = "" then (ev2 ++ [Event.warnNoEmail refVal], .ok)
          else
            let subject := renderMessage cfg.subjectTmpl nameVal refVal
              cfg.periodDisplay cfg.periodId cfg.payslipDateStr
            let body := renderMessage cfg.bodyTmpl nameVal refVal
              cfg.periodDisplay cfg.periodId cfg.payslipDateStr
            let attachment := if cfg.pdfEnabled then pdfPath else xlsxPath
            match env.sendFails refVal with
            | some msg =>
              (ev2 ++ [Event.openOutlookSession, Event.closeOutlookSession],
               .raised msg)
            | none =>
              (ev2 ++ [Event.openOutlookSession,
                Event.sendMail emailVal subject body attachment,
                Event.closeOutlookSession], .ok)
        else (ev2, .ok)

/-- The `for emp in employees:` loop. Returns the event trace, the final
`processed` counter and `none` when the loop ran to completion, or the trace
up to the raise and `some msg` when an iteration raised (the exception
propagates; the counter is never reported in that case). -/
def runLoop (cfg : RunCfg) (env : Env) :
    List Employee → List Event × Nat × Option String
  | [] => ([], 0, none)
  | emp :: rest =>
    match processOne cfg env emp with
    | (ev, .raised msg) => (ev, 0, some msg)
    | (ev, .skippedNoRef) =>
      (ev ++ (runLoop cfg env rest).1,
       (runLoop cfg env rest).2.1, (runLoop cfg env rest).2.2)
    | (ev, .ok) =>
      (ev ++ (runLoop cfg env rest).1,
       (runLoop cfg env rest).2.1 + 1, (runLoop cfg env rest).2.2)

/-- `main` from the employee list on: `SystemExit` when no employees remain
after filtering, otherwise the loop; a normal return reports the processed
count, an exception escapes `main`. -/
def mainRun (cfg : RunCfg) (env : Env) (employees : List Employee) :
    List Event × Except String Nat :=
  if employees.isEmpty then
    ([], .error "No employees found after filtering required columns.")
  else
    match (runLoop cfg env employees).2.2 with
    | none =>
      ((runLoop cfg env employees).1, .ok (runLoop cfg env employees).2.1)
    | some msg => ((runLoop cfg env employees).1, .error msg)

/-- The `__main__` guard: a normal return exits 0; a `SystemExit` with a
message, or any other exception (re-raised as `SystemExit` with a message),
exits 1. -/
def exitCode (r : Except String Nat) : Nat :=
  match r with
  | .ok _ => 0
  | .error _ => 1

/-- Number of occurrences of an event in a trace. -/
def countEvt (e : Event) (tr : List Event) : Nat :=
  tr.count e

/-- Event classifier: workbook writes (template instantiations). -/
def isWriteWorkbook : Event → Bool
  | .writeWorkbook _ _ => true
  | _ => false

/-- Event classifier: fixed-layout (PDF) exports. -/
def isExportPdf : Event → Bool
  | .exportPdf _ _ => true
  | _ => false

/-- Event classifier: notification send attempts. -/
def isSendMail : Event → Bool
  | .sendMail _ _ _ _ => true
  | _ => false

/-- Event classifier: skipped-notification warnings. -/
def isWarnNoEmail : Event → Bool
  | .warnNoEmail _ => true
  | _ => false

/-- Event classifier: Excel session opens. -/
def isOpenExcelEvt : Event → Bool
  | .openExcelSession => true
  | _ => false

/-- Event classifier: Excel session closes. -/
def isCloseExcelEvt : Event → Bool
  | .closeExcelSession => true
  | _ => false

/-- Event classifier: Outlook session opens. -/
def isOpenOutlookEvt : Event → Bool
  | .openOutlookSession => true
  | _ => false

/-- Event classifier: Outlook session closes. -/
def isCloseOutlookEvt : Event → Bool
  | .closeOutlookSession => true
  | _ => false

/-! ### Concrete fixtures for witnesses and counterexamples -/

/-- A concrete resolved run configuration with both capabilities on. -/
def exCfg : RunCfg where
  pdfEnabled := true
  emailEnabled := true
  xlsxDir := "xlsx"
  pdfDir := "pdf"
  periodId := "2026-01"
  periodDisplay := "January 2026"
  payslipDateStr := "01 January 2026"
  filenamePattern := [.refField, .lit "_", .nameField, .lit "_", .dateField]
  subjectTmpl := [.lit "Payslip - ", .periodDisplayField]
  bodyTmpl := [.lit "Dear ", .nameField]
  senderMailbox := none

/-- `exCfg` with the pdf capability off. -/
def exCfgNoPdf : RunCfg :=
  { exCfg with pdfEnabled := false }

/-- An environment in which no external step raises. -/
def exEnvOk : Env where
  templateFails := fun _ => none
  exportFails := fun _ => none
  sendFails := fun _ => none

/-- An environment in which the template step raises for employee `A2`
(e.g. a corrupt template copy). -/
def exEnvTemplateFailA2 : Env where
  templateFails := fun r => if r = "A2" then some "corrupt template" else none
  exportFails := fun _ => none
  sendFails := fun _ => none

/-- Employee fixture `A1` (has an email address). -/
def empA1 : Employee := { ref := "A1", name := "Ann", email := "a1@x" }

/-- Employee fixture `A2` (no email address). -/
def empA2 : Employee := { ref := "A2", name := "Bob", email := "" }

/-- Employee fixture `A3` (has an email address). -/
def empA3 : Employee := { ref := "A3", name := "Cyd", email := "a3@x" }

/-- The three-record scenario of the spec: `A2` lacks an email address. -/
def exEmployees : List Employee := [empA1, empA2, empA3]

/-! ## Theorems -/

/-- Claim C7: with `period_mode = auto_previous_month`, a reference date in
January of year Y resolves to month 12 of year Y-1, and a reference date in
any other month M of year Y resolves to month M-1 of year Y — in both
implementations (`resolve_period` in src/main.py and `resolve_pay_period` in
src/utils/date_resolver.py). -/
theorem claim_C7_auto_previous_month (y : Int) (m : Nat)
    (my : Option Int) (mm : Option Nat) (h1 : 1 ≤ m) (h12 : m ≤ 12) :
    (m = 1 →
      resolvePeriodYM "auto_previous_month" y m my mm = .ok (y - 1, 12) ∧
      resolvePayPeriodYM "auto_previous_month" y m my mm = .ok (y - 1, 12)) ∧
    (m ≠ 1 →
      resolvePeriodYM "auto_previous_month" y m my mm = .ok (y, m - 1) ∧
      resolvePayPeriodYM "auto_previous_month" y m my mm = .ok (y, m - 1)) := by
  constructor
  · rintro rfl
    constructor <;> rfl
  · intro hm
    have hm0 : ¬ (m - 1 = 0) := by omega
    constructor
    · simp [resolvePeriodYM, hm]
    · simp [resolvePayPeriodYM, hm0]

/-- Witness for C7 at January 2026 and at July 2026. -/
theorem claim_C7_auto_previous_month_witness :
    resolvePeriodYM "auto_previous_month" 2026 1 none none = .ok (2025, 12) ∧
    resolvePayPeriodYM "auto_previous_month" 2026 7 none none =
      .ok (2026, 6) := by
  constructor
  · have h := (claim_C7_auto_previous_month 2026 1 none none (by decide)
      (by decide)).1 rfl
    simpa using h.1
  · have h := (claim_C7_auto_previous_month 2026 7 none none (by decide)
      (by decide)).2 (by decide)
    simpa using h.2

/-- Claim C9: when required column names are absent from the data source,
`load_employees` fails with one error listing every missing column name (not
just the first), and returns no records. -/
theorem claim_C9_all_missing_columns_reported (df : DataFrame)
    (rc nc ec : String) (required : List String)
    (h : ∃ col ∈ required, df.columns.contains col = false) :
    ∃ missing, load_employees df rc nc ec required =
        .error (.schemaError missing) ∧
      missing ≠ [] ∧
      (∀ col, col ∈ missing ↔
        col ∈ required ∧ df.columns.contains col = false) := by
  have hne : required.filter (fun col => !(df.columns.contains col)) ≠ [] := by
    obtain ⟨c, hc, hf⟩ := h
    intro he
    have hmem : c ∈ required.filter (fun col => !(df.columns.contains col)) :=
      List.mem_filter.mpr ⟨hc, by rw [hf]; rfl⟩
    rw [he] at hmem
    exact List.not_mem_nil c hmem
  refine ⟨required.filter (fun col => !(df.columns.contains col)), ?_, hne, ?_⟩
  · simp only [load_employees]
    rw [if_neg (by simpa [List.isEmpty_iff] using hne)]
  · intro col
    simp [List.mem_filter]

/-- Witness for C9: a source with only column `R` while `R`, `N`, `E` are
required. -/
theorem claim_C9_witness :
    ∃ missing,
      load_employees ⟨["R"], []⟩ "R" "N" "E" ["R", "N", "E"] =
        .error (.schemaError missing) ∧
      missing ≠ [] ∧
      (∀ col, col ∈ missing ↔
        col ∈ ["R", "N", "E"] ∧
        (DataFrame.mk ["R"] []).columns.contains col = false) :=
  claim_C9_all_missing_columns_reported ⟨["R"], []⟩ "R" "N" "E" ["R", "N", "E"]
    ⟨"N", by decide, by decide⟩

/-- If from iteration `i` on the calculation state stays non-zero at every
poll within the time budget, the loop raises the timeout error. `n` bounds
the remaining iterations, `hinv` is the reachability invariant (iteration `i`
starts no later than one sleep past the timeout). -/
theorem pollCalc_timeout_of_never_done (stateAt : Nat → Nat)
    (timeoutMs : Nat) :
    ∀ n i, timeoutMs / 200 + 1 - i ≤ n → 200 * i ≤ timeoutMs + 200 →
      (∀ j, i ≤ j → 200 * j ≤ timeoutMs + 200 → stateAt j ≠ 0) →
      pollCalc stateAt timeoutMs i =
        .error "Excel calculation did not complete within the timeout" := by
  intro n
  induction n with
  | zero =>
    intro i hn hinv h
    have hi : timeoutMs / 200 + 1 ≤ i := by omega
    have hlate : timeoutMs < 200 * i := by
      have := Nat.div_add_mod timeoutMs 200
      have hm : timeoutMs % 200 < 200 := Nat.mod_lt _ (by omega)
      omega
    rw [pollCalc]
    rw [if_neg (h i le_rfl hinv), if_pos hlate]
  | succ n ih =>
    intro i hn hinv h
    rw [pollCalc]
    rw [if_neg (h i le_rfl hinv)]
    by_cases hlate : timeoutMs < 200 * i
    · rw [if_pos hlate]
    · rw [if_neg hlate]
      exact ih (i + 1) (by omega) (by omega)
        (fun j hj hb => h j (by omega) hb)

/-- If the loop returns `ok j`, the `j`-th poll saw state 0 and happened
within one sleep of the timeout budget. -/
theorem pollCalc_ok_within_budget (stateAt : Nat → Nat) (timeoutMs : Nat) :
    ∀ n i j, timeoutMs / 200 + 1 - i ≤ n → 200 * i ≤ timeoutMs + 200 →
      pollCalc stateAt timeoutMs i = .ok j →
      stateAt j = 0 ∧ 200 * j ≤ timeoutMs + 200 := by
  intro n
  induction n with
  | zero =>
    intro i j hn hinv hok
    have hi : timeoutMs / 200 + 1 ≤ i := by omega
    have hlate : timeoutMs < 200 * i := by
      have := Nat.div_add_mod timeoutMs 200
      have hm : timeoutMs % 200 < 200 := Nat.mod_lt _ (by omega)
      omega
    rw [pollCalc] at hok
    by_cases hs : stateAt i = 0
    · rw [if_pos hs] at hok
      cases hok
      exact ⟨hs, hinv⟩
    · rw [if_neg hs, if_pos hlate] at hok
      cases hok
  | succ n ih =>
    intro i j hn hinv hok
    rw [pollCalc] at hok
    by_cases hs : stateAt i = 0
    · rw [if_pos hs] at hok
      cases hok
      exact ⟨hs, hinv⟩
    · rw [if_neg hs] at hok
      by_cases hlate : timeoutMs < 200 * i
      · rw [if_pos hlate] at hok
        cases hok
      · rw [if_neg hlate] at hok
        exact ih (i + 1) j (by omega) (by omega) hok

/-- Claim C8: `_force_recalc_and_wait` is a bounded poll. It first issues the
full dependency rebuild (or an incremental recalculation when
`force_full_recalc` is off); then, if the calculation-state indicator never
reports done within the timeout budget, the wait raises `TimeoutError`
instead of blocking; and whenever it returns normally, the indicator did
report done at a poll within one sleep of the budget. -/
theorem claim_C8_recalc_wait_bounded (forceFull : Bool) (stateAt : Nat → Nat)
    (timeoutMs : Nat) :
    ((∀ j, 200 * j ≤ timeoutMs + 200 → stateAt j ≠ 0) →
      (force_recalc_and_wait forceFull stateAt timeoutMs).2 =
        .error "Excel calculation did not complete within the timeout") ∧
    (∀ j, (force_recalc_and_wait forceFull stateAt timeoutMs).2 = .ok j →
      stateAt j = 0 ∧ 200 * j ≤ timeoutMs + 200) ∧
    (force_recalc_and_wait forceFull stateAt timeoutMs).1 =
      (if forceFull then RecalcCall.calculateFullRebuild
       else RecalcCall.calculate) := by
  refine ⟨?_, ?_, rfl⟩
  · intro h
    exact pollCalc_timeout_of_never_done stateAt timeoutMs
      (timeoutMs / 200 + 1) 0 (by omega) (by omega)
      (fun j _ hb => h j hb)
  · intro j hok
    exact pollCalc_ok_within_budget stateAt timeoutMs
      (timeoutMs / 200 + 1) 0 j (by omega) (by omega) hok

/-- Witness for C8: with a 1-second timeout and an indicator that is stuck at
`Calculating` (state 1), the wait raises the timeout error. -/
theorem claim_C8_witness :
    (force_recalc_and_wait true (fun _ => 1) 1000).2 =
      .error "Excel calculation did not complete within the timeout" :=
  (claim_C8_recalc_wait_bounded true (fun _ => 1) 1000).1
    (fun _ _ => Nat.one_ne_zero)

/-- Counterexample to claim C4 as stated: with a valid recipient, subject and
body but a non-existent attachment path, `send_email` does raise
`FileNotFoundError`, but only AFTER the external `CreateItem` call on the
Outlook session was made — not before any external mail call. -/
theorem claim_C4_counterexample :
    (send_email "send" "user@example.com" "Subject" "Body" (some "missing.pdf")
        none id (fun _ => false)).2 =
      some (.fileNotFound "missing.pdf") ∧
    MailCall.createItem ∈
      (send_email "send" "user@example.com" "Subject" "Body"
        (some "missing.pdf") none id (fun _ => false)).1 := by
  constructor
  · rfl
  · decide

/-- Claim C4 as amended: an empty recipient, subject or body raises
`ValueError` before any external mail call; a non-existent attachment path
raises `FileNotFoundError` after the mail item has been created and
addressed, but before any `Send` or `Display` call. -/
theorem claim_C4_validation_and_attachment_order
    (sendMode toAddress subject body : String) (att mb : Option String)
    (abspath : String → String) (fileExists : String → Bool) :
    ((toAddress = "" ∨ subject = "" ∨ body = "") →
      ∃ msg, send_email sendMode toAddress subject body att mb abspath
        fileExists = ([], some (.valueError msg))) ∧
    (∀ p, att = some p → p ≠ "" → fileExists (abspath p) = false →
      toAddress ≠ "" → subject ≠ "" → body ≠ "" →
      (send_email sendMode toAddress subject body att mb abspath
          fileExists).2 = some (.fileNotFound (abspath p)) ∧
      MailCall.createItem ∈ (send_email sendMode toAddress subject body att mb
        abspath fileExists).1 ∧
      MailCall.send ∉ (send_email sendMode toAddress subject body att mb
        abspath fileExists).1 ∧
      MailCall.display ∉ (send_email sendMode toAddress subject body att mb
        abspath fileExists).1) := by
  constructor
  · intro hor
    by_cases ht : toAddress = ""
    · exact ⟨"Recipient email address is missing or invalid",
        by simp [send_email, ht]⟩
    · by_cases hs : subject = ""
      · exact ⟨"Email subject cannot be empty", by simp [send_email, ht, hs]⟩
      · have hb : body = "" := by tauto
        exact ⟨"Email body cannot be empty",
          by simp [send_email, ht, hs, hb]⟩
  · intro p hp hpne hfe ht hs hb
    subst hp
    simp only [send_email, if_neg ht, if_neg hs, if_neg hb]
    cases mb with
    | none => simp [hpne, hfe]
    | some m =>
      by_cases hm : m = "" <;> simp [hpne, hfe, hm]

/-- Witness for C4: one call with an empty recipient, one call with a
non-existent attachment. -/
theorem claim_C4_witness :
    (∃ msg, send_email "send" "" "Subject" "Body" none none id
      (fun _ => true) = ([], some (.valueError msg))) ∧
    ((send_email "send" "user@example.com" "Subject" "Body" (some "nope.pdf")
        none id (fun _ => false)).2 = some (.fileNotFound (id "nope.pdf")) ∧
      MailCall.createItem ∈ (send_email "send" "user@example.com" "Subject"
        "Body" (some "nope.pdf") none id (fun _ => false)).1 ∧
      MailCall.send ∉ (send_email "send" "user@example.com" "Subject"
        "Body" (some "nope.pdf") none id (fun _ => false)).1 ∧
      MailCall.display ∉ (send_email "send" "user@example.com" "Subject"
        "Body" (some "nope.pdf") none id (fun _ => false)).1) := by
  constructor
  · exact (claim_C4_validation_and_attachment_order "send" "" "Subject" "Body"
      none none id (fun _ => true)).1 (Or.inl rfl)
  · exact (claim_C4_validation_and_attachment_order "send" "user@example.com"
      "Subject" "Body" (some "nope.pdf") none id (fun _ => false)).2
      "nope.pdf" rfl (by decide) rfl (by decide) (by decide) (by decide)

/-- Every character of a collapsed list is either the replacement character
or an original character on which the predicate fails. -/
theorem mem_collapseAux {p : Char → Bool} {r : Char} :
    ∀ {b : Bool} {l : List Char} {c : Char}, c ∈ collapseAux p r b l →
      c = r ∨ (c ∈ l ∧ p c = false) := by
  intro b l
  induction l generalizing b with
  | nil => intro c hc; cases hc
  | cons a as ih =>
    intro c hc
    by_cases ha : p a = true
    · rw [collapseAux, if_pos ha] at hc
      rcases List.mem_append.mp hc with h1 | h2
      · left
        cases b with
        | true => cases h1
        | false => simpa using h1
      · rcases ih h2 with h | ⟨hmem, hp⟩
        · exact Or.inl h
        · exact Or.inr ⟨List.mem_cons_of_mem a hmem, hp⟩
    · rw [collapseAux, if_neg ha] at hc
      rcases List.mem_cons.mp hc with rfl | h2
      · exact Or.inr ⟨List.mem_cons_self c as, by simpa using ha⟩
      · rcases ih h2 with h | ⟨hmem, hp⟩
        · exact Or.inl h
        · exact Or.inr ⟨List.mem_cons_of_mem a hmem, hp⟩

/-- Collapsing is the identity on lists with no predicate-satisfying
character. -/
theorem collapseAux_eq_self {p : Char → Bool} {r : Char} {b : Bool}
    {l : List Char} (h : ∀ c ∈ l, p c = false) :
    collapseAux p r b l = l := by
  induction l generalizing b with
  | nil => rfl
  | cons a as ih =>
    rw [collapseAux, if_neg (by simp [h a (List.mem_cons_self a as)])]
    rw [ih (fun c hc => h c (List.mem_cons_of_mem a hc))]

/-- `dropWhile` is the identity on lists with no predicate-satisfying
character. -/
theorem dropWhile_eq_self_of_forall {α} {p : α → Bool} {l : List α}
    (h : ∀ c ∈ l, p c = false) : l.dropWhile p = l := by
  cases l with
  | nil => rfl
  | cons a as =>
    exact List.dropWhile_cons_of_neg (by simp [h a (List.mem_cons_self a as)])

/-- The characters of a stripped list come from the original list. -/
theorem mem_pyStrip {l : List Char} {c : Char} (hc : c ∈ pyStrip l) :
    c ∈ l := by
  unfold pyStrip at hc
  rw [List.mem_reverse] at hc
  have h1 := (List.dropWhile_sublist isPySpace).subset hc
  rw [List.mem_reverse] at h1
  exact (List.dropWhile_sublist isPySpace).subset h1

/-- Stripping is the identity on lists with no whitespace character. -/
theorem pyStrip_eq_self {l : List Char}
    (h : ∀ c ∈ l, isPySpace c = false) : pyStrip l = l := by
  unfold pyStrip
  rw [dropWhile_eq_self_of_forall h,
    dropWhile_eq_self_of_forall (fun c hc => h c (List.mem_reverse.mp hc)),
    List.reverse_reverse]

/-- A stripped list is non-empty as soon as the original list has a
non-whitespace character. -/
theorem pyStrip_ne_nil {l : List Char} {c : Char} (hc : c ∈ l)
    (hs : isPySpace c = false) : pyStrip l ≠ [] := by
  intro h
  unfold pyStrip at h
  rw [List.reverse_eq_nil_iff] at h
  have hall2 : ∀ a ∈ (l.dropWhile isPySpace).reverse, isPySpace a = true := by
    intro a ha
    have := List.dropWhile_eq_nil_iff.mp h
    exact this a ha
  have hall : ∀ a ∈ l, isPySpace a = true := by
    intro a ha
    have hsplit := List.takeWhile_append_dropWhile isPySpace l
    rw [← hsplit] at ha
    rcases List.mem_append.mp ha with h1 | h2
    · exact List.mem_takeWhile_imp h1
    · exact hall2 a (List.mem_reverse.mpr h2)
  rw [hall c hc] at hs
  cases hs

/-- Every character of a sanitized filename passes neither the illegal-char
class nor the whitespace class. -/
theorem mem_safeFilenameList {maxLen : Nat} {l : List Char} {c : Char}
    (hc : c ∈ safeFilenameList maxLen l) :
    isIllegalChar c = false ∧ isPySpace c = false := by
  unfold safeFilenameList at hc
  have hc4 := List.mem_of_mem_take hc
  rcases List.mem_map.mp hc4 with ⟨c3, hc3, hmap⟩
  have hc2 : c3 ∈ collapseRuns isPySpace ' ' (collapseRuns isIllegalChar '_' l) :=
    mem_pyStrip hc3
  by_cases hsp : c3 = ' '
  · rw [hsp] at hmap
    simp only [if_pos rfl] at hmap
    rw [← hmap]
    constructor <;> rfl
  · rw [if_neg hsp] at hmap
    subst hmap
    rcases mem_collapseAux hc2 with h | ⟨hmem1, hps⟩
    · exact absurd h hsp
    · rcases mem_collapseAux hmem1 with h | ⟨_, hil⟩
      · subst h
        constructor <;> rfl
      · exact ⟨hil, hps⟩

/-- The sanitized filename has at most `maxLen` characters. -/
theorem safeFilenameList_length_le (maxLen : Nat) (l : List Char) :
    (safeFilenameList maxLen l).length ≤ maxLen := by
  unfold safeFilenameList
  simp

/-- Sanitizing is idempotent on the character-list level. -/
theorem safeFilenameList_idem (maxLen : Nat) (l : List Char) :
    safeFilenameList maxLen (safeFilenameList maxLen l) =
      safeFilenameList maxLen l := by
  have hmem := fun {c} (hc : c ∈ safeFilenameList maxLen l) =>
    mem_safeFilenameList hc
  conv_lhs => rw [safeFilenameList]
  rw [show collapseRuns isIllegalChar '_' (safeFilenameList maxLen l) =
      safeFilenameList maxLen l from
    collapseAux_eq_self (fun c hc => (hmem hc).1)]
  rw [show collapseRuns isPySpace ' ' (safeFilenameList maxLen l) =
      safeFilenameList maxLen l from
    collapseAux_eq_self (fun c hc => (hmem hc).2)]
  rw [pyStrip_eq_self (fun c hc => (hmem hc).2)]
  rw [show (safeFilenameList maxLen l).map
        (fun c => if c = ' ' then '_' else c) = safeFilenameList maxLen l by
    rw [List.map_congr_left (g := id) (fun c hc => by
      have := (hmem hc).2
      have hne : c ≠ ' ' := by
        intro h
        rw [h] at this
        cases this
      simp [hne])]
    exact List.map_id _]
  exact List.take_of_length_le (safeFilenameList_length_le maxLen l)

/-- Claim C6: `safe_filename` is idempotent for every string and every cap;
its output never contains a character of the illegal class (in particular no
path separator `/` or `\`) nor any whitespace; and its length never exceeds
the cap. -/
theorem claim_C6_safe_filename_idempotent (s : String) (maxLen : Nat) :
    safe_filename (safe_filename s maxLen) maxLen = safe_filename s maxLen ∧
    (∀ c ∈ (safe_filename s maxLen).data,
      isIllegalChar c = false ∧ isPySpace c = false) ∧
    (safe_filename s maxLen).length ≤ maxLen := by
  refine ⟨?_, ?_, ?_⟩
  · show String.mk (safeFilenameList maxLen (safeFilenameList maxLen s.data)) =
      String.mk (safeFilenameList maxLen s.data)
    rw [safeFilenameList_idem]
  · intro c hc
    exact mem_safeFilenameList hc
  · show (safeFilenameList maxLen s.data).length ≤ maxLen
    exact safeFilenameList_length_le maxLen s.data

/-- Witness for C6 at a concrete dirty input. -/
theorem claim_C6_witness :
    safe_filename (safe_filename "  a*b  c/d  " 80) 80 =
      safe_filename "  a*b  c/d  " 80 ∧
    (∀ c ∈ (safe_filename "  a*b  c/d  " 80).data,
      isIllegalChar c = false ∧ isPySpace c = false) ∧
    (safe_filename "  a*b  c/d  " 80).length ≤ 80 :=
  claim_C6_safe_filename_idempotent "  a*b  c/d  " 80

/-- `mapM` over `Except` succeeds pointwise. -/
theorem mapM_ok_of_forall {ε α β} (f : α → Except ε β) (g : α → β) :
    ∀ l : List α, (∀ a ∈ l, f a = .ok (g a)) → l.mapM f = .ok (l.map g) := by
  intro l h
  induction l with
  | nil => rfl
  | cons a as ih =>
    rw [List.mapM_cons, h a (List.mem_cons_self a as),
      ih (fun b hb => h b (List.mem_cons_of_mem a hb))]
    rfl

/-- The length of a filtered list is the original length minus the number of
elements failing the predicate. -/
theorem length_filter_eq_sub {α} (p : α → Bool) (l : List α) :
    (l.filter p).length = l.length - l.countP (fun a => !(p a)) := by
  induction l with
  | nil => rfl
  | cons a as ih =>
    have hc : as.countP (fun x => !(p x)) ≤ as.length :=
      List.countP_le_length _
    by_cases h : p a = true
    · rw [List.filter_cons_of_pos h, List.countP_cons]
      simp [h, ih]
      omega
    · rw [List.filter_cons_of_neg h, List.countP_cons]
      have h' : p a = false := by simpa using h
      simp [h', ih]

/-- Counterexample to claim C3 as stated: a data source whose single row has
the reference cell `" "` (whitespace only — neither null nor empty). No row
has a null or empty required value, so the claim demands 1 record with a
non-empty trimmed `ref`; `load_employees` indeed returns the row, but its
`ref` trims to the empty string. -/
theorem claim_C3_counterexample :
    load_employees ⟨["R", "N", "E"], [[some " ", some "x", some "y"]]⟩
        "R" "N" "E" ["R", "N", "E"] =
      .ok [{ ref := "", name := "x", email := "y" }] ∧
    some " " ≠ (none : Option String) ∧
    some " " ≠ some "" := by
  exact ⟨rfl, by decide, by decide⟩

/-- Claim C3 as amended: when every required column exists and the three
bound columns are required, `load_employees` returns exactly `N - K` records
where `K` counts rows with a NULL in a required column, in source row order
(the output is the in-order image of the kept rows); and every returned
record's `ref` is non-empty after trimming PROVIDED each kept row's reference
cell contains at least one non-whitespace character. -/
theorem claim_C3_load_filter_order (df : DataFrame) (rc nc ec : String)
    (required : List String)
    (hrc : rc ∈ required) (hnc : nc ∈ required) (hec : ec ∈ required)
    (hcols : ∀ col ∈ required, df.columns.contains col = true) :
    ∃ recs, load_employees df rc nc ec required = .ok recs ∧
      recs.length = df.rows.length -
        df.rows.countP (fun row => !(rowKept df required row)) ∧
      recs = (df.rows.filter (rowKept df required)).map (fun row =>
        { ref := pyStripS ((cellAt df row rc).getD "")
          name := pyStripS ((cellAt df row nc).getD "")
          email := pyStripS ((cellAt df row ec).getD "") }) ∧
      ((∀ row ∈ df.rows, rowKept df required row = true →
          ∃ s, cellAt df row rc = some s ∧ ∃ c ∈ s.data, isPySpace c = false) →
        ∀ rec ∈ recs, rec.ref ≠ "") := by
  have hmiss : required.filter (fun col => !(df.columns.contains col)) = [] :=
    List.filter_eq_nil_iff.mpr (fun col hcol => by
      rw [hcols col hcol]; decide)
  have hcell : ∀ row, rowKept df required row = true → ∀ col ∈ required,
      ∃ s, cellAt df row col = some s := by
    intro row hk col hcol
    have := (List.all_eq_true.mp hk) col hcol
    exact Option.isSome_iff_exists.mp (by simpa using this)
  have hrow : ∀ row ∈ df.rows.filter (rowKept df required),
      (do
        let r ← stripCell df row rc
        let n ← stripCell df row nc
        let e ← stripCell df row ec
        pure (Employee.mk r n e) : Except LoadError Employee) =
      .ok { ref := pyStripS ((cellAt df row rc).getD "")
            name := pyStripS ((cellAt df row nc).getD "")
            email := pyStripS ((cellAt df row ec).getD "") } := by
    intro row hmem
    have hk : rowKept df required row = true := (List.mem_filter.mp hmem).2
    obtain ⟨sr, hsr⟩ := hcell row hk rc hrc
    obtain ⟨sn, hsn⟩ := hcell row hk nc hnc
    obtain ⟨se, hse⟩ := hcell row hk ec hec
    simp only [stripCell, hsr, hsn, hse]
    rfl
  refine ⟨_, ?_, ?_, rfl, ?_⟩
  · simp only [load_employees, hmiss, List.isEmpty_nil, if_pos]
    exact mapM_ok_of_forall _ _ _ hrow
  · rw [List.length_map]
    exact length_filter_eq_sub _ _
  · intro hnonblank rec hrec
    rcases List.mem_map.mp hrec with ⟨row, hrowmem, hgrow⟩
    have hk : rowKept df required row = true := (List.mem_filter.mp hrowmem).2
    have hrows : row ∈ df.rows := (List.mem_filter.mp hrowmem).1
    obtain ⟨s, hcl, c, hcmem, hcs⟩ := hnonblank row hrows hk
    have href : rec.ref = pyStripS s := by
      rw [← hgrow]
      simp [hcl]
    rw [href]
    intro hempty
    have hdata := congrArg String.data hempty
    exact pyStrip_ne_nil hcmem hcs hdata

/-- Witness for C3 (amended): three rows of which the middle one has a null
reference cell; two records survive, in order, with non-empty refs. -/
theorem claim_C3_witness :
    ∃ recs,
      load_employees
          ⟨["R", "N", "E"],
            [[some "a", some "n1", some "e1"],
             [none, some "n2", some "e2"],
             [some "b", some "n3", some "e3"]]⟩
          "R" "N" "E" ["R", "N", "E"] = .ok recs ∧
      recs.length =
        ([[some "a", some "n1", some "e1"],
          [none, some "n2", some "e2"],
          [some "b", some "n3", some "e3"]] :
            List (List (Option String))).length -
          ([[some "a", some "n1", some "e1"],
            [none, some "n2", some "e2"],
            [some "b", some "n3", some "e3"]] :
              List (List (Option String))).countP
            (fun row => !(rowKept
              ⟨["R", "N", "E"],
                [[some "a", some "n1", some "e1"],
                 [none, some "n2", some "e2"],
                 [some "b", some "n3", some "e3"]]⟩
              ["R", "N", "E"] row)) ∧
      recs = (([[some "a", some "n1", some "e1"],
          [none, some "n2", some "e2"],
          [some "b", some "n3", some "e3"]] :
            List (List (Option String))).filter
          (rowKept ⟨["R", "N", "E"],
            [[some "a", some "n1", some "e1"],
             [none, some "n2", some "e2"],
             [some "b", some "n3", some "e3"]]⟩ ["R", "N", "E"])).map
        (fun row =>
          { ref := pyStripS ((cellAt ⟨["R", "N", "E"],
              [[some "a", some "n1", some "e1"],
               [none, some "n2", some "e2"],
               [some "b", some "n3", some "e3"]]⟩ row "R").getD "")
            name := pyStripS ((cellAt ⟨["R", "N", "E"],
              [[some "a", some "n1", some "e1"],
               [none, some "n2", some "e2"],
               [some "b", some "n3", some "e3"]]⟩ row "N").getD "")
            email := pyStripS ((cellAt ⟨["R", "N", "E"],
              [[some "a", some "n1", some "e1"],
               [none, some "n2", some "e2"],
               [some "b", some "n3", some "e3"]]⟩ row "E").getD "") }) ∧
      ((∀ row ∈ ([[some "a", some "n1", some "e1"],
          [none, some "n2", some "e2"],
          [some "b", some "n3", some "e3"]] :
            List (List (Option String))),
          rowKept ⟨["R", "N", "E"],
            [[some "a", some "n1", some "e1"],
             [none, some "n2", some "e2"],
             [some "b", some "n3", some "e3"]]⟩ ["R", "N", "E"] row = true →
          ∃ s, cellAt ⟨["R", "N", "E"],
            [[some "a", some "n1", some "e1"],
             [none, some "n2", some "e2"],
             [some "b", some "n3", some "e3"]]⟩ row "R" = some s ∧
            ∃ c ∈ s.data, isPySpace c = false) →
        ∀ rec ∈ recs, rec.ref ≠ "") :=
  claim_C3_load_filter_order
    ⟨["R", "N", "E"],
      [[some "a", some "n1", some "e1"],
       [none, some "n2", some "e2"],
       [some "b", some "n3", some "e3"]]⟩
    "R" "N" "E" ["R", "N", "E"]
    (by decide) (by decide) (by decide) (by decide)

/-- With both capabilities on, a non-empty reference and no external failure,
one loop iteration writes the workbook, opens/exports/closes the Excel
session, and then either warns (no email) or opens/sends/closes the Outlook
session; the iteration counts as processed either way. -/
theorem processOne_no_failure (cfg : RunCfg) (env : Env) (e : Employee)
    (htf : env.templateFails (pyStripS e.ref) = none)
    (hef : env.exportFails (pyStripS e.ref) = none)
    (hsf : env.sendFails (pyStripS e.ref) = none)
    (hpdf : cfg.pdfEnabled = true) (hmail : cfg.emailEnabled = true)
    (href : pyStripS e.ref ≠ "") :
    processOne cfg env e =
      (if pyStripS e.email = "" then
        ([Event.writeWorkbook (xlsxPathOf cfg (pyStripS e.ref) (pyStripS e.name))
            (pyStripS e.ref),
          Event.openExcelSession,
          Event.exportPdf (xlsxPathOf cfg (pyStripS e.ref) (pyStripS e.name))
            (pdfPathOf cfg (pyStripS e.ref) (pyStripS e.name)),
          Event.closeExcelSession,
          Event.warnNoEmail (pyStripS e.ref)], .ok)
      else
        ([Event.writeWorkbook (xlsxPathOf cfg (pyStripS e.ref) (pyStripS e.name))
            (pyStripS e.ref),
          Event.openExcelSession,
          Event.exportPdf (xlsxPathOf cfg (pyStripS e.ref) (pyStripS e.name))
            (pdfPathOf cfg (pyStripS e.ref) (pyStripS e.name)),
          Event.closeExcelSession,
          Event.openOutlookSession,
          Event.sendMail (pyStripS e.email)
            (renderMessage cfg.subjectTmpl (pyStripS e.name) (pyStripS e.ref)
              cfg.periodDisplay cfg.periodId cfg.payslipDateStr)
            (renderMessage cfg.bodyTmpl (pyStripS e.name) (pyStripS e.ref)
              cfg.periodDisplay cfg.periodId cfg.payslipDateStr)
            (pdfPathOf cfg (pyStripS e.ref) (pyStripS e.name)),
          Event.closeOutlookSession], .ok)) := by
  simp only [processOne, htf, hef, hsf, hpdf, hmail, if_neg href, if_true]
  by_cases he : pyStripS e.email = "" <;>
    simp [he]

/-- Claim C5: with pdf and email enabled and no external failure, a run over
records with non-empty references produces one workbook and one fixed-layout
file per record, attempts a send exactly for the records with an email,
warns once per record without one, completes without error, and counts every
record (with or without email) as processed. -/
theorem claim_C5_missing_email_still_processed (cfg : RunCfg) (env : Env)
    (emps : List Employee)
    (henv : ∀ r, env.templateFails r = none ∧ env.exportFails r = none ∧
      env.sendFails r = none)
    (hpdf : cfg.pdfEnabled = true) (hmail : cfg.emailEnabled = true)
    (hrefs : ∀ e ∈ emps, pyStripS e.ref ≠ "") :
    (runLoop cfg env emps).2.2 = none ∧
    (runLoop cfg env emps).2.1 = emps.length ∧
    (runLoop cfg env emps).1.countP isWriteWorkbook = emps.length ∧
    (runLoop cfg env emps).1.countP isExportPdf = emps.length ∧
    (runLoop cfg env emps).1.countP isSendMail =
      (emps.filter (fun e => !(pyStripS e.email == ""))).length ∧
    (runLoop cfg env emps).1.countP isWarnNoEmail =
      (emps.filter (fun e => pyStripS e.email == "")).length := by
  induction emps with
  | nil => exact ⟨rfl, rfl, rfl, rfl, rfl, rfl⟩
  | cons e rest ih =>
    obtain ⟨ih1, ih2, ih3, ih4, ih5, ih6⟩ :=
      ih (fun x hx => hrefs x (List.mem_cons_of_mem e hx))
    have hpo := processOne_no_failure cfg env e (henv _).1 (henv _).2.1
      (henv _).2.2 hpdf hmail (hrefs e (List.mem_cons_self e rest))
    by_cases he : pyStripS e.email = ""
    · rw [if_pos he] at hpo
      simp only [runLoop, hpo, List.countP_append, List.filter_cons,
        List.length_cons]
      refine ⟨ih1, by rw [ih2], ?_, ?_, ?_, ?_⟩
      all_goals
        simp [List.countP_cons, isWriteWorkbook, isExportPdf, isSendMail,
          isWarnNoEmail, ih3, ih4, ih5, ih6, he]
      all_goals omega
    · rw [if_neg he] at hpo
      simp only [runLoop, hpo, List.countP_append, List.filter_cons,
        List.length_cons]
      refine ⟨ih1, by rw [ih2], ?_, ?_, ?_, ?_⟩
      all_goals
        simp [List.countP_cons, isWriteWorkbook, isExportPdf, isSendMail,
          isWarnNoEmail, ih3, ih4, ih5, ih6, he]
      all_goals omega

/-- Witness for C5: the spec's three-record scenario (`A2` without email):
3 workbooks, 3 fixed-layout exports, 2 send attempts, 1 skip warning,
processed count 3, no error. -/
theorem claim_C5_witness :
    (runLoop exCfg exEnvOk exEmployees).2.2 = none ∧
    (runLoop exCfg exEnvOk exEmployees).2.1 = exEmployees.length ∧
    (runLoop exCfg exEnvOk exEmployees).1.countP isWriteWorkbook =
      exEmployees.length ∧
    (runLoop exCfg exEnvOk exEmployees).1.countP isExportPdf =
      exEmployees.length ∧
    (runLoop exCfg exEnvOk exEmployees).1.countP isSendMail =
      (exEmployees.filter (fun e => !(pyStripS e.email == ""))).length ∧
    (runLoop exCfg exEnvOk exEmployees).1.countP isWarnNoEmail =
      (exEmployees.filter (fun e => pyStripS e.email == "")).length :=
  claim_C5_missing_email_still_processed exCfg exEnvOk exEmployees
    (fun _ => ⟨rfl, rfl, rfl⟩) rfl rfl
    (by decide)

/-- Counterexample to claim C2 as stated: in the spec's three-record run with
both capabilities on and no failures, the Excel COM session is opened (and
closed) three times — once per employee, inside the loop — and the Outlook
session twice (once per send), not "exactly once per run" for each. The
`ExcelPdfExporter()` / `OutlookEmailSender()` OBJECTS are constructed before
the loop, but `with excel_exporter` / `with outlook_sender` enter and leave
the COM sessions inside the loop body. -/
theorem claim_C2_counterexample :
    (runLoop exCfg exEnvOk exEmployees).1.countP isOpenExcelEvt = 3 ∧
    (runLoop exCfg exEnvOk exEmployees).1.countP isCloseExcelEvt = 3 ∧
    (runLoop exCfg exEnvOk exEmployees).1.countP isOpenOutlookEvt = 2 ∧
    (runLoop exCfg exEnvOk exEmployees).1.countP isCloseOutlookEvt = 2 ∧
    (runLoop exCfg exEnvOk exEmployees).2.2 = none :=
  ⟨rfl, rfl, rfl, rfl, rfl⟩

/-- Claim C2 as amended: the exporter and sender objects are constructed once
per run before the loop, but their COM sessions are scoped per employee: in a
failure-free run with both capabilities on and non-empty references, the
Excel session is opened once per employee and closed as often as opened, and
the Outlook session is opened once per attempted send and closed as often as
opened (each `with` block releases its session on every exit path of that
block). -/
theorem claim_C2_sessions_per_employee (cfg : RunCfg) (env : Env)
    (emps : List Employee)
    (henv : ∀ r, env.templateFails r = none ∧ env.exportFails r = none ∧
      env.sendFails r = none)
    (hpdf : cfg.pdfEnabled = true) (hmail : cfg.emailEnabled = true)
    (hrefs : ∀ e ∈ emps, pyStripS e.ref ≠ "") :
    (runLoop cfg env emps).1.countP isOpenExcelEvt = emps.length ∧
    (runLoop cfg env emps).1.countP isCloseExcelEvt = emps.length ∧
    (runLoop cfg env emps).1.countP isOpenOutlookEvt =
      (emps.filter (fun e => !(pyStripS e.email == ""))).length ∧
    (runLoop cfg env emps).1.countP isCloseOutlookEvt =
      (emps.filter (fun e => !(pyStripS e.email == ""))).length := by
  induction emps with
  | nil => exact ⟨rfl, rfl, rfl, rfl⟩
  | cons e rest ih =>
    obtain ⟨ih1, ih2, ih3, ih4⟩ :=
      ih (fun x hx => hrefs x (List.mem_cons_of_mem e hx))
    have hpo := processOne_no_failure cfg env e (henv _).1 (henv _).2.1
      (henv _).2.2 hpdf hmail (hrefs e (List.mem_cons_self e rest))
    by_cases he : pyStripS e.email = ""
    · rw [if_pos he] at hpo
      simp only [runLoop, hpo, List.countP_append, List.filter_cons,
        List.length_cons]
      refine ⟨?_, ?_, ?_, ?_⟩
      all_goals
        simp [List.countP_cons, isOpenExcelEvt, isCloseExcelEvt,
          isOpenOutlookEvt, isCloseOutlookEvt, ih1, ih2, ih3, ih4, he]
      all_goals omega
    · rw [if_neg he] at hpo
      simp only [runLoop, hpo, List.countP_append, List.filter_cons,
        List.length_cons]
      refine ⟨?_, ?_, ?_, ?_⟩
      all_goals
        simp [List.countP_cons, isOpenExcelEvt, isCloseExcelEvt,
          isOpenOutlookEvt, isCloseOutlookEvt, ih1, ih2, ih3, ih4, he]
      all_goals omega

/-- Witness for C2 (amended) in the three-record run. -/
theorem claim_C2_witness :
    (runLoop exCfg exEnvOk exEmployees).1.countP isOpenExcelEvt =
      exEmployees.length ∧
    (runLoop exCfg exEnvOk exEmployees).1.countP isCloseExcelEvt =
      exEmployees.length ∧
    (runLoop exCfg exEnvOk exEmployees).1.countP isOpenOutlookEvt =
      (exEmployees.filter (fun e => !(pyStripS e.email == ""))).length ∧
    (runLoop exCfg exEnvOk exEmployees).1.countP isCloseOutlookEvt =
      (exEmployees.filter (fun e => !(pyStripS e.email == ""))).length :=
  claim_C2_sessions_per_employee exCfg exEnvOk exEmployees
    (fun _ => ⟨rfl, rfl, rfl⟩) rfl rfl (by decide)

/-- Counterexample to claim C1 as stated: in the three-record run where the
template step raises for `A2`, the loop does NOT catch the exception: the run
aborts with the error, the process exits with code 1 (not 0), only `A1`'s
workbook was written (`A3` is never reached), and `A2` is not merely
"excluded from the success count" — the count is never reported at all. -/
theorem claim_C1_counterexample :
    exEnvTemplateFailA2.templateFails "A2" = some "corrupt template" ∧
    (mainRun exCfg exEnvTemplateFailA2 exEmployees).2 =
      .error "corrupt template" ∧
    exitCode (mainRun exCfg exEnvTemplateFailA2 exEmployees).2 = 1 ∧
    (mainRun exCfg exEnvTemplateFailA2 exEmployees).1.countP
      isWriteWorkbook = 1 :=
  ⟨rfl, rfl, rfl, rfl⟩

/-- Claim C1 as amended: the loop body installs no exception handler. If the
pipeline of one employee raises (after any prefix of employees that completed
without raising), the exception propagates: the loop stops there, the
employees after the failing one produce no events, and the `__main__` guard
turns the exception into a `SystemExit` message, so the process exits
non-zero. -/
theorem claim_C1_exception_aborts_run (cfg : RunCfg) (env : Env)
    (pre post : List Employee) (emp : Employee) (evs : List Event) (n : Nat)
    (ev : List Event) (msg : String)
    (hpre : runLoop cfg env pre = (evs, n, none))
    (hemp : processOne cfg env emp = (ev, .raised msg)) :
    runLoop cfg env (pre ++ emp :: post) = (evs ++ ev, n, some msg) ∧
    (mainRun cfg env (pre ++ emp :: post)).2 = .error msg ∧
    exitCode (mainRun cfg env (pre ++ emp :: post)).2 = 1 := by
  have hloopGen : ∀ pre2 evs2 n2, runLoop cfg env pre2 = (evs2, n2, none) →
      runLoop cfg env (pre2 ++ emp :: post) = (evs2 ++ ev, n2, some msg) := by
    intro pre2
    induction pre2 with
    | nil =>
      intro evs2 n2 hpre2
      have h1 : evs2 = [] := (congrArg Prod.fst hpre2).symm
      have h2 : n2 = 0 := (congrArg (fun x => x.2.1) hpre2).symm
      subst h1
      subst h2
      show runLoop cfg env (emp :: post) = ([] ++ ev, 0, some msg)
      simp only [runLoop, hemp, List.nil_append]
    | cons a pre2 ih =>
      intro evs2 n2 hpre2
      rcases hpo : processOne cfg env a with ⟨ev0, out⟩
      cases out with
      | raised m =>
        rw [runLoop, hpo] at hpre2
        have hbad : (some m : Option String) = none :=
          congrArg (fun x => x.2.2) hpre2
        cases hbad
      | skippedNoRef =>
        rw [runLoop, hpo] at hpre2
        have hr : (runLoop cfg env pre2).2.2 = none :=
          congrArg (fun x => x.2.2) hpre2
        have hevs : evs2 = ev0 ++ (runLoop cfg env pre2).1 :=
          (congrArg Prod.fst hpre2).symm
        have hn : n2 = (runLoop cfg env pre2).2.1 :=
          (congrArg (fun x => x.2.1) hpre2).symm
        have hrec : runLoop cfg env pre2 =
            ((runLoop cfg env pre2).1, (runLoop cfg env pre2).2.1, none) := by
          rw [← hr]
        have hind := ih (runLoop cfg env pre2).1 (runLoop cfg env pre2).2.1
          hrec
        show runLoop cfg env (a :: (pre2 ++ emp :: post)) =
          (evs2 ++ ev, n2, some msg)
        rw [runLoop, hpo, hind, hevs, hn, List.append_assoc]
      | ok =>
        rw [runLoop, hpo] at hpre2
        have hr : (runLoop cfg env pre2).2.2 = none :=
          congrArg (fun x => x.2.2) hpre2
        have hevs : evs2 = ev0 ++ (runLoop cfg env pre2).1 :=
          (congrArg Prod.fst hpre2).symm
        have hn : n2 = (runLoop cfg env pre2).2.1 + 1 :=
          (congrArg (fun x => x.2.1) hpre2).symm
        have hrec : runLoop cfg env pre2 =
            ((runLoop cfg env pre2).1, (runLoop cfg env pre2).2.1, none) := by
          rw [← hr]
        have hind := ih (runLoop cfg env pre2).1 (runLoop cfg env pre2).2.1
          hrec
        show runLoop cfg env (a :: (pre2 ++ emp :: post)) =
          (evs2 ++ ev, n2, some msg)
        rw [runLoop, hpo, hind, hevs, hn, List.append_assoc]
  have hloop := hloopGen pre evs n hpre
  refine ⟨hloop, ?_, ?_⟩
  · have hne : (pre ++ emp :: post).isEmpty = false := by
      cases pre <;> rfl
    simp [mainRun, hne, hloop]
  · have hne : (pre ++ emp :: post).isEmpty = false := by
      cases pre <;> rfl
    simp [mainRun, hne, hloop, exitCode]

/-- Witness for C1 (amended): `A1` completes, the template step raises for
`A2`, and the run errors out with exit code 1. -/
theorem claim_C1_witness :
    (mainRun exCfg exEnvTemplateFailA2 ([empA1] ++ empA2 :: [empA3])).2 =
      .error "corrupt template" ∧
    exitCode (mainRun exCfg exEnvTemplateFailA2
      ([empA1] ++ empA2 :: [empA3])).2 = 1 :=
  ⟨(claim_C1_exception_aborts_run exCfg exEnvTemplateFailA2 [empA1] [empA3]
      empA2 (runLoop exCfg exEnvTemplateFailA2 [empA1]).1
      (runLoop exCfg exEnvTemplateFailA2 [empA1]).2.1 [] "corrupt template"
      rfl rfl).2.1,
   (claim_C1_exception_aborts_run exCfg exEnvTemplateFailA2 [empA1] [empA3]
      empA2 (runLoop exCfg exEnvTemplateFailA2 [empA1]).1
      (runLoop exCfg exEnvTemplateFailA2 [empA1]).2.1 [] "corrupt template"
      rfl rfl).2.2⟩

/-- The only send event one loop iteration can emit carries the employee's
stripped email as recipient and, as attachment, the pdf path when
`pdf_enabled` and the xlsx path otherwise. -/
theorem sendMail_mem_processOne (cfg : RunCfg) (env : Env) (e : Employee)
    (t s b a : String)
    (hmem : Event.sendMail t s b a ∈ (processOne cfg env e).1) :
    t = pyStripS e.email ∧
    a = (if cfg.pdfEnabled then
          pdfPathOf cfg (pyStripS e.ref) (pyStripS e.name)
         else xlsxPathOf cfg (pyStripS e.ref) (pyStripS e.name)) := by
  by_cases href : pyStripS e.ref = "" <;>
    cases htf : env.templateFails (pyStripS e.ref) <;>
    cases hp : cfg.pdfEnabled <;>
    cases hef : env.exportFails (pyStripS e.ref) <;>
    cases hm : cfg.emailEnabled <;>
    by_cases he : pyStripS e.email = "" <;>
    cases hsf : env.sendFails (pyStripS e.ref) <;>
    simp_all [processOne]

/-- Claim C10: every notification send in a run attaches the sending
employee's fixed-layout (pdf) path when the pdf capability is enabled, and
that employee's workbook (xlsx) path when it is disabled. -/
theorem claim_C10_attachment_path (cfg : RunCfg) (env : Env)
    (emps : List Employee) (t s b a : String)
    (hmem : Event.sendMail t s b a ∈ (runLoop cfg env emps).1) :
    ∃ e ∈ emps, t = pyStripS e.email ∧
      a = (if cfg.pdfEnabled then
            pdfPathOf cfg (pyStripS e.ref) (pyStripS e.name)
           else xlsxPathOf cfg (pyStripS e.ref) (pyStripS e.name)) := by
  induction emps with
  | nil => simp [runLoop] at hmem
  | cons e rest ih =>
    rcases hpo : processOne cfg env e with ⟨ev0, out⟩
    have hev0 : ev0 = (processOne cfg env e).1 := by rw [hpo]
    cases out with
    | raised m =>
      rw [runLoop, hpo] at hmem
      exact ⟨e, List.mem_cons_self e rest,
        sendMail_mem_processOne cfg env e t s b a (hev0 ▸ hmem)⟩
    | skippedNoRef =>
      rw [runLoop, hpo] at hmem
      rcases List.mem_append.mp hmem with h1 | h2
      · exact ⟨e, List.mem_cons_self e rest,
          sendMail_mem_processOne cfg env e t s b a (hev0 ▸ h1)⟩
      · obtain ⟨x, hx, hres⟩ := ih h2
        exact ⟨x, List.mem_cons_of_mem e hx, hres⟩
    | ok =>
      rw [runLoop, hpo] at hmem
      rcases List.mem_append.mp hmem with h1 | h2
      · exact ⟨e, List.mem_cons_self e rest,
          sendMail_mem_processOne cfg env e t s b a (hev0 ▸ h1)⟩
      · obtain ⟨x, hx, hres⟩ := ih h2
        exact ⟨x, List.mem_cons_of_mem e hx, hres⟩

/-- Witness for C10: with pdf disabled and email enabled, the send for `A1`
attaches `A1`'s xlsx workbook path. -/
theorem claim_C10_witness :
    ∃ e ∈ exEmployees, "a1@x" = pyStripS e.email ∧
      "xlsx/A1_Ann_2026-01.xlsx" =
        (if exCfgNoPdf.pdfEnabled then
          pdfPathOf exCfgNoPdf (pyStripS e.ref) (pyStripS e.name)
         else xlsxPathOf exCfgNoPdf (pyStripS e.ref) (pyStripS e.name)) :=
  claim_C10_attachment_path exCfgNoPdf exEnvOk exEmployees "a1@x"
    "Payslip - January 2026" "Dear Ann" "xlsx/A1_Ann_2026-01.xlsx"
    (by decide)

end Payslip
